import Mathlib

/-!
Shallow embedding of `src/icp_rust_boilerplate_backend/src/lib.rs`: a course
catalog canister with a stable record table keyed by `u64` ids, an id counter,
and an access-control ledger (single admin, moderator list, banned list).
Machine integers (`u64` ids, timestamps) are modelled as `Nat`; the counter
never approaches 2^64 in any statement here and the source treats exhaustion
as fatal. The `StableBTreeMap` is modelled as an association list sorted by
key (`storeInsert` keeps key order, matching B-tree iteration order). Caller
identity (`api::caller().to_string()`) is passed explicitly as a `String`
argument; the clock (`time()`) is passed explicitly as a `now : Nat` argument.
-/

namespace CourseBackend

/-- Mirrors struct `Course` in lib.rs. -/
structure Course where
  id : Nat
  creator_name : String
  creator_address : String
  title : String
  body : String
  attachment_url : String
  keyword : String
  category : String
  created_at : Nat
  updated_at : Option Nat
  contact : String
  deriving DecidableEq, Repr

/-- Mirrors enum `Error` in lib.rs. -/
inductive Error where
  | NotFound (msg : String)
  | UnAuthorized (msg : String)
  | EmptyFields (msg : String)
  | BannedUser (msg : String)
  deriving DecidableEq, Repr

/-- Mirrors struct `CoursePayLoad` in lib.rs. -/
structure CoursePayLoad where
  title : String
  creator_name : String
  body : String
  attachment_url : String
  keyword : String
  category : String
  contact : String
  deriving DecidableEq, Repr

/-- Mirrors struct `CourseUpdatePayLoad` in lib.rs. -/
structure CourseUpdatePayLoad where
  title : Option String
  creator_name : Option String
  body : Option String
  attachment_url : Option String
  keyword : Option String
  category : Option String
  contact : Option String
  deriving DecidableEq, Repr

/-- Mirrors struct `FilterPayLoad` in lib.rs. -/
structure FilterPayLoad where
  keyword : Option String
  category : Option String
  creator_address : Option String
  deriving DecidableEq, Repr

/-- The canister's persistent state: the `ID_COUNTER` cell, the `STORAGE`
stable B-tree map (as a key-sorted association list), `ADMIN_ADDRESS`,
`MODERATOR_ADDRESSES` and `BANNED_ADDRESSES`. -/
structure State where
  id_counter : Nat
  storage : List (Nat × Course)
  admin_address : Option String
  moderator_addresses : List String
  banned_addresses : List String
  deriving DecidableEq, Repr

/-- `StableBTreeMap::get`: look a course up by id. -/
def storeGet (storage : List (Nat × Course)) (id : Nat) : Option Course :=
  (storage.find? (fun pr => pr.1 == id)).map (fun pr => pr.2)

/-- `StableBTreeMap::insert` (upsert by key, keeping key order). -/
def storeInsert (storage : List (Nat × Course)) (id : Nat) (c : Course) :
    List (Nat × Course) :=
  match storage with
  | [] => [(id, c)]
  | pr :: rest =>
      if id < pr.1 then (id, c) :: pr :: rest
      else if id = pr.1 then (id, c) :: rest
      else pr :: storeInsert rest id c

/-- `StableBTreeMap::remove`: drop the entry with the given key. -/
def storeRemove (storage : List (Nat × Course)) (id : Nat) :
    List (Nat × Course) :=
  storage.filter (fun pr => !(pr.1 == id))

/-- Mirrors `_is_admin` in lib.rs. -/
def _is_admin (s : State) (address : String) : Bool :=
  match s.admin_address with
  | some admin => address == admin
  | none => false

/-- Mirrors `_is_authorized` in lib.rs: caller is the admin or a moderator. -/
def _is_authorized (s : State) (address : String) : Bool :=
  match s.admin_address with
  | some admin => address == admin || s.moderator_addresses.contains address
  | none => false

/-- Mirrors `_is_allowed` in lib.rs: the caller is the creator of the course
with the given id, or the admin, or a moderator. The source unwraps the
storage lookup and would trap on a missing id; every call site checks
presence first, so the `none` branch is unreachable and modelled as `false`. -/
def _is_allowed (s : State) (id : Nat) (caller : String) : Bool :=
  match storeGet s.storage id with
  | some course =>
      if course.creator_address == caller then true
      else
        match s.admin_address with
        | some admin => caller == admin || s.moderator_addresses.contains caller
        | none => false
  | none => false

/-- Mirrors `set_admin_address` in lib.rs: if no admin is set, or the caller
is the current admin, the input address becomes the admin. -/
def set_admin_address (s : State) (caller address : String) :
    Except Error Unit × State :=
  match s.admin_address with
  | none => (Except.ok (), { s with admin_address := some address })
  | some admin =>
      if caller == admin then (Except.ok (), { s with admin_address := some address })
      else (Except.error (Error.UnAuthorized ("Only admin can change")), s)

/-- Mirrors `add_moderator` in lib.rs (its failures are plain strings). -/
def add_moderator (s : State) (caller address : String) :
    Except String Unit × State :=
  if _is_admin s caller then
    if 5 ≤ s.moderator_addresses.length then
      (Except.error ("Maximum number of moderators reached"), s)
    else if s.moderator_addresses.contains address then
      (Except.error ("Moderator address already exists"), s)
    else
      (Except.ok (), { s with moderator_addresses := s.moderator_addresses ++ [address] })
  else (Except.error ("Only admin can add moderators"), s)

/-- Mirrors `remove_moderator` in lib.rs. -/
def remove_moderator (s : State) (caller address : String) :
    Except Error Unit × State :=
  if _is_admin s caller then
    if s.moderator_addresses.contains address then
      (Except.ok (),
        { s with moderator_addresses := s.moderator_addresses.filter (fun a => a != address) })
    else (Except.error (Error.NotFound ("Provided addres is not a moderator")), s)
  else (Except.error (Error.UnAuthorized ("only admin can remove moderators")), s)

/-- Mirrors `get_course` in lib.rs (a query; reads only). -/
def get_course (s : State) (id : Nat) : Except Error Course :=
  match storeGet s.storage id with
  | some course => Except.ok course
  | none =>
      Except.error (Error.NotFound ("a course with id=" ++ toString id ++ " not found"))

/-- The conjunctive match of `filter_courses_and`: `matches` starts `true` and
is and-ed with each present criterion. -/
def matchesAnd (payload : FilterPayLoad) (course : Course) : Bool :=
  (match payload.keyword with
   | some keyword => course.keyword == keyword
   | none => true) &&
  (match payload.category with
   | some category => course.category == category
   | none => true) &&
  (match payload.creator_address with
   | some creator_address => course.creator_address == creator_address
   | none => true)

/-- The disjunctive match of `filter_courses_or`: `matches` starts `false` and
is or-ed with each present criterion. -/
def matchesOr (payload : FilterPayLoad) (course : Course) : Bool :=
  (match payload.keyword with
   | some keyword => course.keyword == keyword
   | none => false) ||
  (match payload.category with
   | some category => course.category == category
   | none => false) ||
  (match payload.creator_address with
   | some creator_address => course.creator_address == creator_address
   | none => false)

/-- Mirrors `filter_courses_and` in lib.rs (a query; reads only). Note the
empty-payload failure is the `NotFound` variant in the source. -/
def filter_courses_and (s : State) (payload : FilterPayLoad) :
    Except Error (List Course) :=
  if payload.keyword.isNone && payload.category.isNone && payload.creator_address.isNone then
    Except.error (Error.NotFound
      ("Filter payload is empty; at least one filter criterion must be provided"))
  else
    let courses := (s.storage.filter (fun pr => matchesAnd payload pr.2)).map (fun pr => pr.2)
    if courses.isEmpty then
      Except.error (Error.NotFound ("couldn\x27t find a course with provided inputs"))
    else Except.ok courses

/-- Mirrors `filter_courses_or` in lib.rs (a query; reads only). -/
def filter_courses_or (s : State) (payload : FilterPayLoad) :
    Except Error (List Course) :=
  if payload.keyword.isNone && payload.category.isNone && payload.creator_address.isNone then
    Except.error (Error.NotFound
      ("Filter payload is empty; at least one filter criterion must be provided"))
  else
    let courses := (s.storage.filter (fun pr => matchesOr payload pr.2)).map (fun pr => pr.2)
    if courses.isEmpty then
      Except.error (Error.NotFound ("couldn\x27t find a course with provided inputs"))
    else Except.ok courses

/-- Mirrors `add_course` in lib.rs: reject banned callers, validate all payload
strings non-empty, then read the counter as the new id, bump the counter, and
insert the new course (`Cell::set` returns the previous value, so the first
issued id is the initial counter value 0). -/
def add_course (s : State) (caller : String) (course : CoursePayLoad) (now : Nat) :
    Except Error Course × State :=
  if s.banned_addresses.contains caller then
    (Except.error (Error.BannedUser ("User is banned. Cannot add course")), s)
  else if course.title.isEmpty || course.creator_name.isEmpty || course.body.isEmpty ||
      course.attachment_url.isEmpty || course.keyword.isEmpty || course.category.isEmpty ||
      course.contact.isEmpty then
    (Except.error (Error.EmptyFields
      ("Please fill in all the required fields to create a course")), s)
  else
    let id := s.id_counter
    let newCourse : Course :=
      { id := id
        creator_address := caller
        creator_name := course.creator_name
        title := course.title
        body := course.body
        attachment_url := course.attachment_url
        created_at := now
        updated_at := none
        category := course.category
        keyword := course.keyword
        contact := course.contact }
    (Except.ok newCourse,
      { s with
          id_counter := s.id_counter + 1
          storage := storeInsert s.storage newCourse.id newCourse })

/-- The field-by-field patch application of `update_course`: each `Some` slot
overwrites the corresponding field, then `updated_at` is set to the clock. -/
def applyPatch (course : Course) (payload : CourseUpdatePayLoad) (now : Nat) : Course :=
  let c1 := match payload.title with
    | some title => { course with title := title }
    | none => course
  let c2 := match payload.creator_name with
    | some creator_name => { c1 with creator_name := creator_name }
    | none => c1
  let c3 := match payload.body with
    | some body => { c2 with body := body }
    | none => c2
  let c4 := match payload.attachment_url with
    | some attachment_url => { c3 with attachment_url := attachment_url }
    | none => c3
  let c5 := match payload.keyword with
    | some keyword => { c4 with keyword := keyword }
    | none => c4
  let c6 := match payload.category with
    | some category => { c5 with category := category }
    | none => c5
  let c7 := match payload.contact with
    | some contact => { c6 with contact := contact }
    | none => c6
  { c7 with updated_at := some now }

/-- Mirrors `update_course` in lib.rs; `do_insert` stores at the (patched)
course's own `id` field. -/
def update_course (s : State) (caller : String) (id : Nat)
    (payload : CourseUpdatePayLoad) (now : Nat) : Except Error Course × State :=
  match storeGet s.storage id with
  | some course =>
      if _is_allowed s id caller then
        let updated := applyPatch course payload now
        (Except.ok updated, { s with storage := storeInsert s.storage updated.id updated })
      else
        (Except.error (Error.UnAuthorized
          ("You are not authorized to update course with id=" ++ toString id)), s)
  | none =>
      (Except.error (Error.NotFound
        ("couldn\x27t update a course with id=" ++ toString id ++ ". course not found")), s)

/-- Mirrors `delete_course` in lib.rs (the source reuses the "update" wording
in its `UnAuthorized` and `NotFound` messages). -/
def delete_course (s : State) (caller : String) (id : Nat) :
    Except Error Course × State :=
  match storeGet s.storage id with
  | some course =>
      if _is_allowed s id caller then
        (Except.ok course, { s with storage := storeRemove s.storage id })
      else
        (Except.error (Error.UnAuthorized
          ("You are not authorized to update course with id=" ++ toString id)), s)
  | none =>
      (Except.error (Error.NotFound
        ("couldn\x27t update a course with id=" ++ toString id ++ ". course not found")), s)

/-- Mirrors `delete_courses_by_creator` in lib.rs. Its access check passes
when the caller equals the target address, or is the admin, or a moderator.
The removal loop runs before the emptiness check, so the filtered storage is
the state in both the `Ok` and the empty-`NotFound` branch. -/
def delete_courses_by_creator (s : State) (caller address : String) :
    Except Error (List Course) × State :=
  let is_allowed :=
    if address == caller then true
    else
      match s.admin_address with
      | some admin => caller == admin || s.moderator_addresses.contains caller
      | none => false
  if is_allowed then
    let deleted_courses :=
      (s.storage.filter (fun pr => pr.2.creator_address == address)).map (fun pr => pr.2)
    let s' := { s with storage := s.storage.filter (fun pr => !(pr.2.creator_address == address)) }
    if deleted_courses.isEmpty then
      (Except.error (Error.NotFound
        ("No courses found for the caller. Nothing to delete.")), s')
    else (Except.ok deleted_courses, s')
  else (Except.error (Error.UnAuthorized ("You are not authorized to delete the course ")), s)

/-- Mirrors `delete_my_courses` in lib.rs: no access check, deletes every
course whose creator is the caller. -/
def delete_my_courses (s : State) (caller : String) :
    Except Error (List Course) × State :=
  let deleted_courses :=
    (s.storage.filter (fun pr => pr.2.creator_address == caller)).map (fun pr => pr.2)
  let s' := { s with storage := s.storage.filter (fun pr => !(pr.2.creator_address == caller)) }
  if deleted_courses.isEmpty then
    (Except.error (Error.NotFound
      ("No courses found for the caller. Nothing to delete.")), s')
  else (Except.ok deleted_courses, s')

/-- Mirrors `ban_creator` in lib.rs: the caller must be admin or moderator
(`_is_authorized`), the target must be neither the admin nor a moderator
(`is_allowed`, which is `false` when no admin is set), then all the target's
courses are deleted via `delete_courses_by_creator` and, only if that
succeeded (at least one course deleted), the target is appended to the
banned list. -/
def ban_creator (s : State) (caller address : String) :
    Except Error (List Course) × State :=
  let is_authorized := _is_authorized s caller
  let is_allowed :=
    match s.admin_address with
    | some admin =>
        if address == admin then false
        else !(s.moderator_addresses.contains address)
    | none => false
  if is_allowed && is_authorized then
    match delete_courses_by_creator s caller address with
    | (Except.ok courses, s') =>
        (Except.ok courses, { s' with banned_addresses := s'.banned_addresses ++ [address] })
    | (Except.error _, s') =>
        (Except.error (Error.NotFound
          ("No courses found for the address, cannot ban the user")), s')
  else (Except.error (Error.UnAuthorized ("You are not authorized to ban the user")), s)

/-- Mirrors `un_ban_creator` in lib.rs: removes the first occurrence of the
address from the banned list. -/
def un_ban_creator (s : State) (caller address : String) :
    Except Error Unit × State :=
  if _is_authorized s caller then
    if s.banned_addresses.contains address then
      (Except.ok (), { s with banned_addresses := s.banned_addresses.erase address })
    else (Except.error (Error.NotFound ("Address not found in banned list.")), s)
  else (Except.error (Error.UnAuthorized ("You are not authorized to ban the user")), s)

/-- One exported operation together with its arguments and its caller
identity (queries included; they never mutate state). -/
inductive Op where
  | setAdmin (caller address : String)
  | addModerator (caller address : String)
  | removeModerator (caller address : String)
  | getCourse (id : Nat)
  | filterAnd (payload : FilterPayLoad)
  | filterOr (payload : FilterPayLoad)
  | addCourse (caller : String) (payload : CoursePayLoad) (now : Nat)
  | updateCourse (caller : String) (id : Nat) (payload : CourseUpdatePayLoad) (now : Nat)
  | deleteCourse (caller : String) (id : Nat)
  | deleteCoursesByCreator (caller address : String)
  | deleteMyCourses (caller : String)
  | banCreator (caller address : String)
  | unBanCreator (caller address : String)

/-- The state after running one exported operation. -/
def step (s : State) : Op → State
  | .setAdmin caller address => (set_admin_address s caller address).2
  | .addModerator caller address => (add_moderator s caller address).2
  | .removeModerator caller address => (remove_moderator s caller address).2
  | .getCourse _ => s
  | .filterAnd _ => s
  | .filterOr _ => s
  | .addCourse caller payload now => (add_course s caller payload now).2
  | .updateCourse caller id payload now => (update_course s caller id payload now).2
  | .deleteCourse caller id => (delete_course s caller id).2
  | .deleteCoursesByCreator caller address => (delete_courses_by_creator s caller address).2
  | .deleteMyCourses caller => (delete_my_courses s caller).2
  | .banCreator caller address => (ban_creator s caller address).2
  | .unBanCreator caller address => (un_ban_creator s caller address).2

/-- The canister's initial state: counter 0, empty table, no admin, no
moderators, no banned addresses. -/
def initState : State :=
  { id_counter := 0
    storage := []
    admin_address := none
    moderator_addresses := []
    banned_addresses := [] }

/-- States reachable from the initial state by exported operations. -/
inductive Reachable : State → Prop where
  | init : Reachable initState
  | tail : ∀ s op, Reachable s → Reachable (step s op)

/-! Helper lemmas about the store model. -/

theorem mem_storeInsert (storage : List (Nat × Course)) (id : Nat) (c : Course)
    (pr : Nat × Course) (h : pr ∈ storeInsert storage id c) :
    pr = (id, c) ∨ pr ∈ storage := by
  induction storage with
  | nil => simpa [storeInsert] using h
  | cons q rest ih =>
      unfold storeInsert at h
      split at h
      · rcases List.mem_cons.mp h with h | h
        · exact Or.inl h
        · exact Or.inr h
      · split at h
        · rcases List.mem_cons.mp h with h | h
          · exact Or.inl h
          · exact Or.inr (List.mem_cons_of_mem _ h)
        · rcases List.mem_cons.mp h with h | h
          · exact Or.inr (h ▸ List.mem_cons_self _ _)
          · rcases ih h with h | h
            · exact Or.inl h
            · exact Or.inr (List.mem_cons_of_mem _ h)

theorem storeGet_mem (storage : List (Nat × Course)) (id : Nat) (c : Course)
    (h : storeGet storage id = some c) : ∃ pr ∈ storage, pr.2 = c := by
  unfold storeGet at h
  cases hf : storage.find? (fun pr => pr.1 == id) with
  | none => rw [hf] at h; simp at h
  | some pr =>
      rw [hf] at h
      simp at h
      exact ⟨pr, List.mem_of_find?_eq_some hf, h⟩

/-! Concrete fixtures used by witnesses and counterexamples. -/

/-- A fully non-empty creation payload. -/
def samplePayload : CoursePayLoad :=
  { title := "t", creator_name := "n", body := "b", attachment_url := "a",
    keyword := "k", category := "c", contact := "x" }

/-- An update payload with every slot absent. -/
def emptyUpdate : CourseUpdatePayLoad :=
  { title := none, creator_name := none, body := none,
    attachment_url := none, keyword := none, category := none, contact := none }

/-- A filter payload with every criterion absent. -/
def emptyFilter : FilterPayLoad :=
  { keyword := none, category := none, creator_address := none }

/-- A course created by the unprivileged identity "U". -/
def sampleCourseU : Course :=
  { id := 0, creator_name := "n", creator_address := "U", title := "t", body := "b",
    attachment_url := "a", keyword := "k", category := "c", created_at := 1,
    updated_at := none, contact := "x" }

/-- A state with admin "A", no moderators, and the single course of "U". -/
def baseState : State :=
  { id_counter := 1
    storage := [(0, sampleCourseU)]
    admin_address := some ("A")
    moderator_addresses := []
    banned_addresses := [] }

/-- `baseState` with "U" additionally on the banned list. -/
def bannedState : State :=
  { baseState with banned_addresses := ["U"] }

/-! Claim theorems. -/

/-- C9: every failing `add_course` call — banned caller or some empty payload
string — leaves the whole state unchanged: no id is consumed and no record is
inserted (the failure returns before the counter is read). -/
theorem add_course_failure_frame (s : State) (caller : String) (p : CoursePayLoad)
    (now : Nat) (e : Error) (s' : State)
    (h : add_course s caller p now = (Except.error e, s')) : s' = s := by
  unfold add_course at h
  split at h
  · simp at h
    exact h.2.symm
  · split at h
    · simp at h
      exact h.2.symm
    · simp at h

theorem add_course_failure_frame_witness :
    (add_course bannedState ("U") samplePayload 5).2 = bannedState :=
  add_course_failure_frame bannedState ("U") samplePayload 5
    (Error.BannedUser ("User is banned. Cannot add course"))
    ((add_course bannedState ("U") samplePayload 5).2) rfl

/-- Recognizes the `EmptyFields` failure variant — the code's counterpart of
the spec taxonomy entry `InvalidArgument` (used for empty required fields). -/
def isEmptyFieldsResult (r : Except Error (List Course)) : Bool :=
  match r with
  | Except.error (Error.EmptyFields _) => true
  | _ => false

/-- C2 counterexample: on the all-absent filter payload, both filters fail,
but with the `NotFound` variant, not with the `EmptyFields`/invalid-argument
variant the claim names. -/
theorem filters_empty_payload_uses_notfound_variant :
    isEmptyFieldsResult (filter_courses_and baseState emptyFilter) = false ∧
    isEmptyFieldsResult (filter_courses_or baseState emptyFilter) = false ∧
    filter_courses_and baseState emptyFilter =
      Except.error (Error.NotFound
        ("Filter payload is empty; at least one filter criterion must be provided")) ∧
    filter_courses_or baseState emptyFilter =
      Except.error (Error.NotFound
        ("Filter payload is empty; at least one filter criterion must be provided")) :=
  ⟨rfl, rfl, rfl, rfl⟩

/-- C2 amended: for every filter payload in which every criterion field is
absent, both `filter_courses_and` and `filter_courses_or` fail — with the
`NotFound` error variant carrying the empty-payload message — regardless of
the table contents. -/
theorem filters_empty_payload_fail_notfound (s : State) (p : FilterPayLoad)
    (hk : p.keyword = none) (hc : p.category = none) (ha : p.creator_address = none) :
    filter_courses_and s p =
      Except.error (Error.NotFound
        ("Filter payload is empty; at least one filter criterion must be provided")) ∧
    filter_courses_or s p =
      Except.error (Error.NotFound
        ("Filter payload is empty; at least one filter criterion must be provided")) := by
  unfold filter_courses_and filter_courses_or
  simp [hk, hc, ha]

theorem filters_empty_payload_fail_notfound_witness :
    filter_courses_and baseState emptyFilter =
      Except.error (Error.NotFound
        ("Filter payload is empty; at least one filter criterion must be provided")) ∧
    filter_courses_or baseState emptyFilter =
      Except.error (Error.NotFound
        ("Filter payload is empty; at least one filter criterion must be provided")) :=
  filters_empty_payload_fail_notfound baseState emptyFilter rfl rfl rfl

/-- Folding any operation list over a reachable state stays reachable. -/
theorem reachable_foldl (ops : List Op) (s : State) (h : Reachable s) :
    Reachable (ops.foldl step s) := by
  induction ops generalizing s with
  | nil => exact h
  | cons op rest ih => exact ih _ (Reachable.tail s op h)

/-- C3 counterexample: "U" is neither the admin nor a moderator of
`baseState`, yet `delete_courses_by_creator` called by "U" on the address "U"
succeeds and removes "U"\x27s course — the operation also admits self-deletion,
so its access class is not admin/moderator only. -/
theorem delete_by_creator_allows_self :
    (("U" : String) == ("A" : String)) = false ∧
    baseState.moderator_addresses.contains ("U") = false ∧
    delete_courses_by_creator baseState ("U") ("U") =
      (Except.ok [sampleCourseU], { baseState with storage := [] }) :=
  ⟨rfl, rfl, rfl⟩

/-- C3 amended: for every caller who is neither the admin, nor a moderator,
nor equal to the target address itself, `delete_courses_by_creator(address)`
fails with `UnAuthorized` and leaves the whole state (in particular the
record table) unchanged. The source additionally lets any caller bulk-delete
the records they themselves created. -/
theorem delete_by_creator_unauthorized (s : State) (caller address : String)
    (hself : caller ≠ address)
    (hadmin : ∀ a, s.admin_address = some a → caller ≠ a)
    (hmod : caller ∉ s.moderator_addresses) :
    delete_courses_by_creator s caller address =
      (Except.error (Error.UnAuthorized ("You are not authorized to delete the course ")), s) := by
  unfold delete_courses_by_creator
  have h1 : (address == caller) = false := by
    simp
    exact fun h => hself h.symm
  cases hA : s.admin_address with
  | none => simp [h1, hA]
  | some a =>
      have h2 : (caller == a) = false := by
        simp
        exact hadmin a hA
      simp [h1, hA, h2, hmod]

theorem delete_by_creator_unauthorized_witness :
    delete_courses_by_creator baseState ("V") ("U") =
      (Except.error (Error.UnAuthorized ("You are not authorized to delete the course ")), baseState) :=
  delete_by_creator_unauthorized baseState ("V") ("U") (by decide)
    (by
      intro a ha
      have h : some ("A") = some a := ha
      injection h with h
      subst h
      decide)
    (by decide)

/-- The course created by "W" in the C4 scenario. -/
def courseW : Course :=
  { id := 0, creator_name := "n", creator_address := "W", title := "t", body := "b",
    attachment_url := "a", keyword := "k", category := "c", created_at := 1,
    updated_at := none, contact := "x" }

/-- The C4 scenario: anoint admin "A", let "W" and "U" create courses, ban
"U" (which deletes course 1), then rotate the admin identity to the banned
"U". -/
def c4Ops : List Op :=
  [Op.setAdmin ("A") ("A"),
   Op.addCourse ("W") samplePayload 1,
   Op.addCourse ("U") samplePayload 2,
   Op.banCreator ("A") ("U"),
   Op.setAdmin ("A") ("U")]

/-- The state reached by the C4 scenario: course 0 by "W" in the table,
"U" banned and (after rotation) the admin. -/
def c4State : State := c4Ops.foldl step initState

/-- C4 counterexample: in the reachable state `c4State`, the banned caller
"U" successfully updates and deletes course 0 — banned identities are not
barred from mutating records. -/
theorem banned_caller_can_still_mutate :
    Reachable c4State ∧
    ("U" : String) ∈ c4State.banned_addresses ∧
    storeGet c4State.storage 0 = some courseW ∧
    (update_course c4State ("U") 0 emptyUpdate 7).1 =
      Except.ok ({ courseW with updated_at := some 7 }) ∧
    (delete_course c4State ("U") 0).1 = Except.ok courseW :=
  ⟨reachable_foldl c4Ops initState Reachable.init, by decide, rfl, rfl, rfl⟩

/-- C4 amended: neither `update_course` nor `delete_course` consults the
banned list: their result and their effect on the record table are the same
for every value of `banned_addresses` (so banned identities are barred only
from creating records, not from mutating them — a banned caller succeeds or
fails exactly as the same caller would while unbanned). -/
theorem update_delete_ignore_banned_list (s : State) (b : List String) (caller : String)
    (id : Nat) (p : CourseUpdatePayLoad) (now : Nat) :
    (update_course { s with banned_addresses := b } caller id p now).1 =
      (update_course s caller id p now).1 ∧
    (update_course { s with banned_addresses := b } caller id p now).2.storage =
      (update_course s caller id p now).2.storage ∧
    (delete_course { s with banned_addresses := b } caller id).1 =
      (delete_course s caller id).1 ∧
    (delete_course { s with banned_addresses := b } caller id).2.storage =
      (delete_course s caller id).2.storage := by
  have hst : ({ s with banned_addresses := b } : State).storage = s.storage := rfl
  have hal : _is_allowed { s with banned_addresses := b } id caller =
      _is_allowed s id caller := rfl
  unfold update_course delete_course
  rw [hal]
  simp only [hst]
  cases h : storeGet s.storage id with
  | none => simp [h]
  | some course =>
      by_cases ha : _is_allowed s id caller = true <;> simp [h, ha]

theorem update_delete_ignore_banned_list_witness :
    (update_course { baseState with banned_addresses := ["U"] } ("U") 0 emptyUpdate 7).1 =
      (update_course baseState ("U") 0 emptyUpdate 7).1 ∧
    (update_course { baseState with banned_addresses := ["U"] } ("U") 0 emptyUpdate 7).2.storage =
      (update_course baseState ("U") 0 emptyUpdate 7).2.storage ∧
    (delete_course { baseState with banned_addresses := ["U"] } ("U") 0).1 =
      (delete_course baseState ("U") 0).1 ∧
    (delete_course { baseState with banned_addresses := ["U"] } ("U") 0).2.storage =
      (delete_course baseState ("U") 0).2.storage :=
  update_delete_ignore_banned_list baseState ["U"] ("U") 0 emptyUpdate 7

theorem _is_allowed_false (s : State) (id : Nat) (course : Course) (caller : String)
    (hget : storeGet s.storage id = some course)
    (hcr : caller ≠ course.creator_address)
    (hadmin : ∀ a, s.admin_address = some a → caller ≠ a)
    (hmod : caller ∉ s.moderator_addresses) : _is_allowed s id caller = false := by
  unfold _is_allowed
  rw [hget]
  have h1 : (course.creator_address == caller) = false := by
    simp
    exact fun h => hcr h.symm
  cases hA : s.admin_address with
  | none => simp [h1]
  | some a =>
      have h2 : (caller == a) = false := by
        simp
        exact hadmin a hA
      simp [h1, h2, hmod]

theorem _is_allowed_creator (s : State) (id : Nat) (course : Course)
    (hget : storeGet s.storage id = some course) :
    _is_allowed s id course.creator_address = true := by
  unfold _is_allowed
  rw [hget]
  simp

/-- C5: for a record id present in the table, `update_course` and
`delete_course` by a caller who is neither the record\x27s creator, nor the
admin, nor a moderator return `UnAuthorized` and leave the whole state
unchanged; invoked by the record\x27s creator they succeed. No assumption is
made about the banned list, so the creator succeeds even while banned. -/
theorem mutate_authorization (s : State) (id : Nat) (course : Course) (caller : String)
    (p : CourseUpdatePayLoad) (now : Nat)
    (hget : storeGet s.storage id = some course) :
    ((caller ≠ course.creator_address ∧ (∀ a, s.admin_address = some a → caller ≠ a) ∧
        caller ∉ s.moderator_addresses) →
      update_course s caller id p now =
        (Except.error (Error.UnAuthorized
          ("You are not authorized to update course with id=" ++ toString id)), s) ∧
      delete_course s caller id =
        (Except.error (Error.UnAuthorized
          ("You are not authorized to update course with id=" ++ toString id)), s)) ∧
    (caller = course.creator_address →
      (update_course s caller id p now).1 = Except.ok (applyPatch course p now) ∧
      (delete_course s caller id).1 = Except.ok course) := by
  constructor
  · rintro ⟨hcr, hadmin, hmod⟩
    have hfalse := _is_allowed_false s id course caller hget hcr hadmin hmod
    unfold update_course delete_course
    rw [hget]
    simp [hfalse]
  · intro hcr
    subst hcr
    have htrue := _is_allowed_creator s id course hget
    unfold update_course delete_course
    rw [hget]
    simp [htrue]

theorem mutate_authorization_witness :
    update_course baseState ("V") 0 emptyUpdate 7 =
      (Except.error (Error.UnAuthorized
        ("You are not authorized to update course with id=" ++ toString 0)), baseState) ∧
    delete_course baseState ("V") 0 =
      (Except.error (Error.UnAuthorized
        ("You are not authorized to update course with id=" ++ toString 0)), baseState) ∧
    (update_course baseState ("U") 0 emptyUpdate 7).1 =
      Except.ok (applyPatch sampleCourseU emptyUpdate 7) ∧
    (delete_course baseState ("U") 0).1 = Except.ok sampleCourseU := by
  have h1 := (mutate_authorization baseState 0 sampleCourseU ("V") emptyUpdate 7 rfl).1
    ⟨by decide,
     by
      intro a ha
      have h : some ("A") = some a := ha
      injection h with h
      subst h
      decide,
     by decide⟩
  have h2 := (mutate_authorization baseState 0 sampleCourseU ("U") emptyUpdate 7 rfl).2 rfl
  exact ⟨h1.1, h1.2, h2.1, h2.2⟩

theorem applyPatch_fields (course : Course) (p : CourseUpdatePayLoad) (now : Nat) :
    (applyPatch course p now).title = p.title.getD course.title ∧
    (applyPatch course p now).creator_name = p.creator_name.getD course.creator_name ∧
    (applyPatch course p now).body = p.body.getD course.body ∧
    (applyPatch course p now).attachment_url = p.attachment_url.getD course.attachment_url ∧
    (applyPatch course p now).keyword = p.keyword.getD course.keyword ∧
    (applyPatch course p now).category = p.category.getD course.category ∧
    (applyPatch course p now).contact = p.contact.getD course.contact ∧
    (applyPatch course p now).updated_at = some now ∧
    (applyPatch course p now).id = course.id ∧
    (applyPatch course p now).creator_address = course.creator_address ∧
    (applyPatch course p now).created_at = course.created_at := by
  rcases p with ⟨t, cn, bd, au, kw, cat, ct⟩
  cases t <;> cases cn <;> cases bd <;> cases au <;> cases kw <;> cases cat <;> cases ct <;>
    exact ⟨rfl, rfl, rfl, rfl, rfl, rfl, rfl, rfl, rfl, rfl, rfl⟩

/-- C6: a successful `update_course` by an authorized caller stores a record
whose fields with `some` patch slots take the patch value, whose fields with
absent slots are unchanged, whose `updated_at` is `some now`, and whose `id`,
`creator_address` and `created_at` are those of the prior record; the rest of
the state is unchanged apart from that one table entry. -/
theorem update_course_patch_semantics (s : State) (id : Nat) (course : Course)
    (caller : String) (p : CourseUpdatePayLoad) (now : Nat)
    (hget : storeGet s.storage id = some course)
    (hallow : _is_allowed s id caller = true) :
    ∃ c', update_course s caller id p now =
        (Except.ok c', { s with storage := storeInsert s.storage c'.id c' }) ∧
      c'.title = p.title.getD course.title ∧
      c'.creator_name = p.creator_name.getD course.creator_name ∧
      c'.body = p.body.getD course.body ∧
      c'.attachment_url = p.attachment_url.getD course.attachment_url ∧
      c'.keyword = p.keyword.getD course.keyword ∧
      c'.category = p.category.getD course.category ∧
      c'.contact = p.contact.getD course.contact ∧
      c'.updated_at = some now ∧
      c'.id = course.id ∧
      c'.creator_address = course.creator_address ∧
      c'.created_at = course.created_at := by
  obtain ⟨h1, h2, h3, h4, h5, h6, h7, h8, h9, h10, h11⟩ := applyPatch_fields course p now
  refine ⟨applyPatch course p now, ?_, h1, h2, h3, h4, h5, h6, h7, h8, h9, h10, h11⟩
  unfold update_course
  rw [hget]
  simp [hallow]

/-- The patch used by the C6 witness: overwrite `title` and `category`,
leave every other slot absent. -/
def somePatch : CourseUpdatePayLoad :=
  { title := some ("t2"), creator_name := none, body := none, attachment_url := none,
    keyword := none, category := some ("c2"), contact := none }

theorem update_course_patch_semantics_witness :
    ∃ c', update_course baseState ("U") 0 somePatch 7 =
        (Except.ok c', { baseState with storage := storeInsert baseState.storage c'.id c' }) ∧
      c'.title = somePatch.title.getD sampleCourseU.title ∧
      c'.creator_name = somePatch.creator_name.getD sampleCourseU.creator_name ∧
      c'.body = somePatch.body.getD sampleCourseU.body ∧
      c'.attachment_url = somePatch.attachment_url.getD sampleCourseU.attachment_url ∧
      c'.keyword = somePatch.keyword.getD sampleCourseU.keyword ∧
      c'.category = somePatch.category.getD sampleCourseU.category ∧
      c'.contact = somePatch.contact.getD sampleCourseU.contact ∧
      c'.updated_at = some 7 ∧
      c'.id = sampleCourseU.id ∧
      c'.creator_address = sampleCourseU.creator_address ∧
      c'.created_at = sampleCourseU.created_at :=
  update_course_patch_semantics baseState 0 sampleCourseU ("U") somePatch 7 rfl rfl

/-! Counter-frame lemmas: no exported operation other than `add_course`
touches the id counter, and `add_course` only ever increments it. -/

theorem set_admin_address_counter (s : State) (caller address : String) :
    ((set_admin_address s caller address).2).id_counter = s.id_counter := by
  unfold set_admin_address
  (repeat' split) <;> rfl

theorem add_moderator_counter (s : State) (caller address : String) :
    ((add_moderator s caller address).2).id_counter = s.id_counter := by
  unfold add_moderator
  (repeat' split) <;> rfl

theorem remove_moderator_counter (s : State) (caller address : String) :
    ((remove_moderator s caller address).2).id_counter = s.id_counter := by
  unfold remove_moderator
  (repeat' split) <;> rfl

theorem update_course_counter (s : State) (caller : String) (id : Nat)
    (p : CourseUpdatePayLoad) (now : Nat) :
    ((update_course s caller id p now).2).id_counter = s.id_counter := by
  unfold update_course
  (repeat' split) <;> rfl

theorem delete_course_counter (s : State) (caller : String) (id : Nat) :
    ((delete_course s caller id).2).id_counter = s.id_counter := by
  unfold delete_course
  (repeat' split) <;> rfl

theorem delete_courses_by_creator_counter (s : State) (caller address : String) :
    ((delete_courses_by_creator s caller address).2).id_counter = s.id_counter := by
  simp only [delete_courses_by_creator]
  (repeat' split) <;> rfl

theorem delete_my_courses_counter (s : State) (caller : String) :
    ((delete_my_courses s caller).2).id_counter = s.id_counter := by
  simp only [delete_my_courses]
  (repeat' split) <;> rfl

theorem ban_creator_counter (s : State) (caller address : String) :
    ((ban_creator s caller address).2).id_counter = s.id_counter := by
  have h := delete_courses_by_creator_counter s caller address
  simp only [ban_creator]
  (repeat' split) <;> first
    | rfl
    | (rename_i heq; rw [heq] at h; exact h)

theorem un_ban_creator_counter (s : State) (caller address : String) :
    ((un_ban_creator s caller address).2).id_counter = s.id_counter := by
  unfold un_ban_creator
  (repeat' split) <;> rfl

theorem add_course_counter (s : State) (caller : String) (p : CoursePayLoad) (now : Nat) :
    s.id_counter ≤ ((add_course s caller p now).2).id_counter := by
  unfold add_course
  (repeat' split) <;> first | exact Nat.le.refl | exact Nat.le_succ _

/-- A successful `add_course` issues exactly the pre-call counter value as the
new id and bumps the counter by one. -/
theorem add_course_success (s : State) (caller : String) (p : CoursePayLoad) (now : Nat)
    (c : Course) (s' : State) (h : add_course s caller p now = (Except.ok c, s')) :
    c.id = s.id_counter ∧ s'.id_counter = s.id_counter + 1 := by
  unfold add_course at h
  split at h
  · simp at h
  · split at h
    · simp at h
    · simp at h
      obtain ⟨hc, hs⟩ := h
      subst hc
      subst hs
      exact ⟨rfl, rfl⟩

theorem step_counter_mono (s : State) (op : Op) : s.id_counter ≤ (step s op).id_counter := by
  cases op with
  | setAdmin caller address => exact Nat.le_of_eq (set_admin_address_counter s caller address).symm
  | addModerator caller address => exact Nat.le_of_eq (add_moderator_counter s caller address).symm
  | removeModerator caller address => exact Nat.le_of_eq (remove_moderator_counter s caller address).symm
  | getCourse id => exact Nat.le.refl
  | filterAnd payload => exact Nat.le.refl
  | filterOr payload => exact Nat.le.refl
  | addCourse caller p now => exact add_course_counter s caller p now
  | updateCourse caller id p now => exact Nat.le_of_eq (update_course_counter s caller id p now).symm
  | deleteCourse caller id => exact Nat.le_of_eq (delete_course_counter s caller id).symm
  | deleteCoursesByCreator caller address =>
      exact Nat.le_of_eq (delete_courses_by_creator_counter s caller address).symm
  | deleteMyCourses caller => exact Nat.le_of_eq (delete_my_courses_counter s caller).symm
  | banCreator caller address => exact Nat.le_of_eq (ban_creator_counter s caller address).symm
  | unBanCreator caller address => exact Nat.le_of_eq (un_ban_creator_counter s caller address).symm

theorem foldl_counter_mono (ops : List Op) (s : State) :
    s.id_counter ≤ (ops.foldl step s).id_counter := by
  induction ops generalizing s with
  | nil => exact Nat.le.refl
  | cons op rest ih => exact Nat.le_trans (step_counter_mono s op) (ih (step s op))

/-- C7: the counter starts at 0 so the first issued id is 0; a successful
`add_course` issues the current counter value and bumps the counter; no
exported operation ever decreases the counter; hence across any sequence of
exported operations, a later successful `add_course` issues a strictly larger
id than an earlier one — ids are strictly increasing and never reused. -/
theorem id_counter_monotonicity :
    initState.id_counter = 0 ∧
    (∀ s caller p now c s', add_course s caller p now = (Except.ok c, s') →
      c.id = s.id_counter ∧ s'.id_counter = s.id_counter + 1) ∧
    (∀ s op, s.id_counter ≤ (step s op).id_counter) ∧
    (∀ s₁ caller₁ p₁ now₁ c₁ s₁' (ops : List Op) caller₂ p₂ now₂ c₂ s₂',
      add_course s₁ caller₁ p₁ now₁ = (Except.ok c₁, s₁') →
      add_course (ops.foldl step s₁') caller₂ p₂ now₂ = (Except.ok c₂, s₂') →
      c₁.id < c₂.id) := by
  refine ⟨rfl, add_course_success, step_counter_mono, ?_⟩
  intro s₁ caller₁ p₁ now₁ c₁ s₁' ops caller₂ p₂ now₂ c₂ s₂' h1 h2
  obtain ⟨hc1, hs1⟩ := add_course_success _ _ _ _ _ _ h1
  obtain ⟨hc2, hs2⟩ := add_course_success _ _ _ _ _ _ h2
  have hm := foldl_counter_mono ops s₁'
  omega

/-- The course issued by the second `add_course` of the C7 witness. -/
def course7b : Course := { sampleCourseU with id := 1, created_at := 2 }

/-- The state after the first `add_course` of the C7 witness. -/
def s7a : State := (add_course initState ("U") samplePayload 1).2

/-- The state after the second `add_course` of the C7 witness. -/
def s7b : State := (add_course s7a ("U") samplePayload 2).2

theorem id_counter_monotonicity_witness : sampleCourseU.id < course7b.id :=
  id_counter_monotonicity.2.2.2 initState ("U") samplePayload 1 sampleCourseU s7a []
    ("U") samplePayload 2 course7b s7b rfl rfl

theorem _is_authorized_some_admin (s : State) (caller : String)
    (h : _is_authorized s caller = true) : ∃ a, s.admin_address = some a := by
  unfold _is_authorized at h
  cases hA : s.admin_address with
  | none => rw [hA] at h; simp at h
  | some a => exact ⟨a, rfl⟩

/-- An admin-or-moderator caller passes `delete_courses_by_creator`\x27s access
check; with no record owned by the target the operation fails `NotFound` and
the storage filter removes nothing. -/
theorem delete_courses_by_creator_authorized_none (s : State) (caller address : String)
    (hauth : _is_authorized s caller = true)
    (hnone : ∀ pr ∈ s.storage, pr.2.creator_address ≠ address) :
    delete_courses_by_creator s caller address =
      (Except.error (Error.NotFound ("No courses found for the caller. Nothing to delete.")), s) := by
  obtain ⟨a, hA⟩ := _is_authorized_some_admin s caller hauth
  unfold _is_authorized at hauth
  rw [hA] at hauth
  simp at hauth
  have hcond : address = caller ∨ caller = a ∨ caller ∈ s.moderator_addresses := Or.inr hauth
  have hfk : s.storage.filter (fun pr => !(pr.2.creator_address == address)) = s.storage := by
    apply List.filter_eq_self.mpr
    intro pr hpr
    simpa using hnone pr hpr
  have hfe : s.storage.filter (fun pr => (pr.2.creator_address == address)) = [] := by
    apply List.filter_eq_nil_iff.mpr
    intro pr hpr
    simpa using hnone pr hpr
  simp [delete_courses_by_creator, hA, hcond, hfk, hfe]
  rw [← hA]

/-- An admin-or-moderator caller with at least one record owned by the target:
`delete_courses_by_creator` succeeds, returning the matching records and
removing exactly them from storage. -/
theorem delete_courses_by_creator_authorized_some (s : State) (caller address : String)
    (hauth : _is_authorized s caller = true)
    (hsome : ∃ pr ∈ s.storage, pr.2.creator_address = address) :
    delete_courses_by_creator s caller address =
      (Except.ok ((s.storage.filter (fun pr => pr.2.creator_address == address)).map (fun pr => pr.2)),
       { s with storage := s.storage.filter (fun pr => !(pr.2.creator_address == address)) }) := by
  obtain ⟨a, hA⟩ := _is_authorized_some_admin s caller hauth
  unfold _is_authorized at hauth
  rw [hA] at hauth
  simp at hauth
  have hcond : address = caller ∨ caller = a ∨ caller ∈ s.moderator_addresses := Or.inr hauth
  obtain ⟨pr0, hpr0, hcr0⟩ := hsome
  have hmem : pr0 ∈ s.storage.filter (fun pr => (pr.2.creator_address == address)) := by
    rw [List.mem_filter]
    exact ⟨hpr0, by simpa using hcr0⟩
  have hne : ((s.storage.filter (fun pr => (pr.2.creator_address == address))).map
      (fun pr => pr.2)).isEmpty = false := by
    cases hF : s.storage.filter (fun pr => (pr.2.creator_address == address)) with
    | nil => rw [hF] at hmem; simp at hmem
    | cons x xs => rfl
  simp [delete_courses_by_creator, hA, hcond, hne]

/-- C8: for an address owning no record, `ban_creator` invoked by an
admin-or-moderator caller (address itself neither admin nor moderator) fails
with `NotFound` and the whole state — banned list, table, ledger — is
unchanged: the ban is not applied. -/
theorem ban_creator_no_records_fails (s : State) (caller address : String)
    (hauth : _is_authorized s caller = true)
    (haddr_admin : ∀ a, s.admin_address = some a → address ≠ a)
    (haddr_mod : address ∉ s.moderator_addresses)
    (hnone : ∀ pr ∈ s.storage, pr.2.creator_address ≠ address) :
    ban_creator s caller address =
      (Except.error (Error.NotFound ("No courses found for the address, cannot ban the user")), s) := by
  obtain ⟨a, hA⟩ := _is_authorized_some_admin s caller hauth
  have hne : (address == a) = false := by
    simp
    exact haddr_admin a hA
  have hdel := delete_courses_by_creator_authorized_none s caller address hauth hnone
  simp [ban_creator, hA, hne, haddr_mod, hauth, hdel]

theorem ban_creator_no_records_fails_witness :
    ban_creator baseState ("A") ("X") =
      (Except.error (Error.NotFound ("No courses found for the address, cannot ban the user")), baseState) :=
  ban_creator_no_records_fails baseState ("A") ("X") rfl
    (by
      intro a ha
      have h : some ("A") = some a := ha
      injection h with h
      subst h
      decide)
    (by decide)
    (by decide)

/-- C1: banning an address that owns at least one record, by an
admin-or-moderator caller, with the target neither admin nor moderator,
succeeds; afterwards no record of that creator remains, the address is on the
banned list, and every subsequent `add_course` by that address fails with the
ban-specific `BannedUser` error leaving the state unchanged. -/
theorem ban_cascade (s : State) (caller address : String)
    (hauth : _is_authorized s caller = true)
    (haddr_admin : ∀ a, s.admin_address = some a → address ≠ a)
    (haddr_mod : address ∉ s.moderator_addresses)
    (hsome : ∃ pr ∈ s.storage, pr.2.creator_address = address) :
    ∃ cs s', ban_creator s caller address = (Except.ok cs, s') ∧
      (∀ pr ∈ s'.storage, pr.2.creator_address ≠ address) ∧
      address ∈ s'.banned_addresses ∧
      (∀ p now, add_course s' address p now =
        (Except.error (Error.BannedUser ("User is banned. Cannot add course")), s')) := by
  obtain ⟨a, hA⟩ := _is_authorized_some_admin s caller hauth
  have hne : (address == a) = false := by
    simp
    exact haddr_admin a hA
  have hdel := delete_courses_by_creator_authorized_some s caller address hauth hsome
  refine ⟨(s.storage.filter (fun pr => pr.2.creator_address == address)).map (fun pr => pr.2),
    { s with
        storage := s.storage.filter (fun pr => !(pr.2.creator_address == address))
        banned_addresses := s.banned_addresses ++ [address] }, ?_, ?_, ?_, ?_⟩
  · simp [ban_creator, hA, hne, haddr_mod, hauth, hdel]
  · intro pr hpr
    simp only [List.mem_filter] at hpr
    simpa using hpr.2
  · simp
  · intro p now
    have hc : (s.banned_addresses ++ [address]).contains address = true := by simp
    simp [add_course, hc]

theorem ban_cascade_witness :
    ∃ cs s', ban_creator baseState ("A") ("U") = (Except.ok cs, s') ∧
      (∀ pr ∈ s'.storage, pr.2.creator_address ≠ ("U")) ∧
      ("U" : String) ∈ s'.banned_addresses ∧
      (∀ p now, add_course s' ("U") p now =
        (Except.error (Error.BannedUser ("User is banned. Cannot add course")), s')) :=
  ban_cascade baseState ("A") ("U") rfl
    (by
      intro a ha
      have h : some ("A") = some a := ha
      injection h with h
      subst h
      decide)
    (by decide)
    ⟨(0, sampleCourseU), by decide, rfl⟩

theorem mem_storeRemove (storage : List (Nat × Course)) (id : Nat) (pr : Nat × Course)
    (h : pr ∈ storeRemove storage id) : pr ∈ storage := by
  unfold storeRemove at h
  exact (List.mem_filter.mp h).1

/-- A successful `delete_courses_by_creator` leaves the banned list alone,
filters exactly the target\x27s records out of storage, and can only happen
when the target owned at least one record. -/
theorem delete_courses_by_creator_ok_cases (s : State) (caller address : String)
    (cs : List Course) (s' : State)
    (heq : delete_courses_by_creator s caller address = (Except.ok cs, s')) :
    s'.banned_addresses = s.banned_addresses ∧
    s'.storage = s.storage.filter (fun pr => !(pr.2.creator_address == address)) ∧
    ∃ pr ∈ s.storage, pr.2.creator_address = address := by
  simp only [delete_courses_by_creator] at heq
  (repeat' split at heq) <;>
    (injection heq with h1 h2
     first
       | exact Except.noConfusion h1
       | (rename_i hempty
          subst h2
          refine ⟨rfl, rfl, ?_⟩
          cases hF : s.storage.filter (fun pr => (pr.2.creator_address == address)) with
          | nil => rw [hF] at hempty; simp at hempty
          | cons x xs =>
              have hx : x ∈ s.storage.filter (fun pr => (pr.2.creator_address == address)) := by
                rw [hF]
                exact List.mem_cons_self _ _
              have hm := List.mem_filter.mp hx
              exact ⟨x, hm.1, by simpa using hm.2⟩))

/-- A failing `delete_courses_by_creator` leaves the banned list alone and
either leaves storage alone or (in the empty-result branch) applies the
creator filter, which then removes nothing. -/
theorem delete_courses_by_creator_err_cases (s : State) (caller address : String)
    (e : Error) (s' : State)
    (heq : delete_courses_by_creator s caller address = (Except.error e, s')) :
    s'.banned_addresses = s.banned_addresses ∧
    (s'.storage = s.storage ∨
      s'.storage = s.storage.filter (fun pr => !(pr.2.creator_address == address))) := by
  simp only [delete_courses_by_creator] at heq
  (repeat' split at heq) <;>
    (injection heq with h1 h2
     first
       | exact Except.noConfusion h1
       | (subst h2; exact ⟨rfl, Or.inr rfl⟩)
       | (subst h2; exact ⟨rfl, Or.inl rfl⟩))

/-- Every exported operation preserves the C10 invariant: the banned list
stays duplicate-free and no stored record\x27s creator is banned. -/
theorem step_preserves_ban_invariant (s : State) (op : Op)
    (h1 : s.banned_addresses.Nodup)
    (h2 : ∀ pr ∈ s.storage, pr.2.creator_address ∉ s.banned_addresses) :
    (step s op).banned_addresses.Nodup ∧
    ∀ pr ∈ (step s op).storage, pr.2.creator_address ∉ (step s op).banned_addresses := by
  cases op with
  | setAdmin caller address =>
      simp only [step, set_admin_address]
      (repeat' split) <;> exact ⟨h1, h2⟩
  | addModerator caller address =>
      simp only [step, add_moderator]
      (repeat' split) <;> exact ⟨h1, h2⟩
  | removeModerator caller address =>
      simp only [step, remove_moderator]
      (repeat' split) <;> exact ⟨h1, h2⟩
  | getCourse id => exact ⟨h1, h2⟩
  | filterAnd payload => exact ⟨h1, h2⟩
  | filterOr payload => exact ⟨h1, h2⟩
  | addCourse caller p now =>
      simp only [step, add_course]
      split
      · exact ⟨h1, h2⟩
      · rename_i hbanned
        split
        · exact ⟨h1, h2⟩
        · refine ⟨h1, ?_⟩
          intro pr hpr
          rcases mem_storeInsert _ _ _ _ hpr with h | h
          · subst h
            simpa using hbanned
          · exact h2 pr h
  | updateCourse caller id p now =>
      simp only [step, update_course]
      split
      · rename_i course heq
        split
        · refine ⟨h1, ?_⟩
          intro pr hpr
          rcases mem_storeInsert _ _ _ _ hpr with h | h
          · subst h
            show (applyPatch course p now).creator_address ∉ s.banned_addresses
            have hcr : (applyPatch course p now).creator_address = course.creator_address :=
              (applyPatch_fields course p now).2.2.2.2.2.2.2.2.2.1
            rw [hcr]
            obtain ⟨pr0, hpr0, hpr0e⟩ := storeGet_mem s.storage id course heq
            have hnb := h2 pr0 hpr0
            rw [hpr0e] at hnb
            exact hnb
          · exact h2 pr h
        · exact ⟨h1, h2⟩
      · exact ⟨h1, h2⟩
  | deleteCourse caller id =>
      simp only [step, delete_course]
      split
      · split
        · refine ⟨h1, ?_⟩
          intro pr hpr
          exact h2 pr (mem_storeRemove _ _ _ hpr)
        · exact ⟨h1, h2⟩
      · exact ⟨h1, h2⟩
  | deleteCoursesByCreator caller address =>
      simp only [step, delete_courses_by_creator]
      (repeat' split) <;>
        first
          | exact ⟨h1, h2⟩
          | (refine ⟨h1, ?_⟩
             intro pr hpr
             exact h2 pr (List.mem_filter.mp hpr).1)
  | deleteMyCourses caller =>
      simp only [step, delete_my_courses]
      (repeat' split) <;>
        first
          | exact ⟨h1, h2⟩
          | (refine ⟨h1, ?_⟩
             intro pr hpr
             exact h2 pr (List.mem_filter.mp hpr).1)
  | banCreator caller address =>
      simp only [step, ban_creator]
      split
      · split
        · rename_i courses s' heq
          obtain ⟨hb, hstor, pr0, hpr0, hcr0⟩ :=
            delete_courses_by_creator_ok_cases s caller address courses s' heq
          have haddr_nb : address ∉ s.banned_addresses := fun hmem =>
            h2 pr0 hpr0 (hcr0 ▸ hmem)
          constructor
          · show (s'.banned_addresses ++ [address]).Nodup
            rw [hb]
            refine List.Nodup.append h1 (List.nodup_singleton address) ?_
            intro x hx hx2
            rw [List.mem_singleton] at hx2
            subst hx2
            exact haddr_nb hx
          · intro pr hpr
            show pr.2.creator_address ∉ s'.banned_addresses ++ [address]
            have hpr' : pr ∈ s'.storage := hpr
            rw [hstor] at hpr'
            have hm := List.mem_filter.mp hpr'
            intro hmem
            rw [List.mem_append] at hmem
            rcases hmem with hmem | hmem
            · exact h2 pr hm.1 (hb ▸ hmem)
            · rw [List.mem_singleton] at hmem
              have hne : pr.2.creator_address ≠ address := by simpa using hm.2
              exact hne hmem
        · rename_i e s' heq
          obtain ⟨hb, hstor⟩ :=
            delete_courses_by_creator_err_cases s caller address e s' heq
          refine ⟨hb.symm ▸ h1, ?_⟩
          intro pr hpr
          rw [hb]
          rcases hstor with hstor | hstor
          · exact h2 pr (hstor ▸ hpr)
          · have hpr' : pr ∈ s.storage.filter (fun pr => !(pr.2.creator_address == address)) :=
              hstor ▸ hpr
            exact h2 pr (List.mem_filter.mp hpr').1
      · exact ⟨h1, h2⟩
  | unBanCreator caller address =>
      simp only [step, un_ban_creator]
      (repeat' split) <;>
        first
          | exact ⟨h1, h2⟩
          | (refine ⟨h1.erase address, ?_⟩
             intro pr hpr hmem
             exact h2 pr hpr (List.mem_of_mem_erase hmem))

/-- C10: in every state reachable from the initial state by exported
operations, the banned list has no duplicate addresses and no record in the
table has a banned creator. -/
theorem reachable_ban_invariant (s : State) (h : Reachable s) :
    s.banned_addresses.Nodup ∧
    ∀ pr ∈ s.storage, pr.2.creator_address ∉ s.banned_addresses := by
  induction h with
  | init => exact ⟨List.nodup_nil, by simp [initState]⟩
  | tail s op hs ih => exact step_preserves_ban_invariant s op ih.1 ih.2

theorem reachable_ban_invariant_witness :
    initState.banned_addresses.Nodup ∧
    ∀ pr ∈ initState.storage, pr.2.creator_address ∉ initState.banned_addresses :=
  reachable_ban_invariant initState Reachable.init

end CourseBackend
